import Mathlib

/-!
Verification of the Stay-Fit adaptive nutrition core: a shallow embedding of
the biometric trend analyzer, the adaptive metabolism calculator, the meal
adaptation rule engine and the meal optimizer (src/adaptation.py,
src/metabolism.py, src/models.py, src/ml_models.py, src/config.py).

Modelling conventions:
* Python floats are modelled as exact rationals (ℚ); the numeric claims are
  about the real-number algebra of the formulas, not about IEEE rounding.
* `numpy` statistics: `np.mean`, `np.max`, `np.min` are the evident list
  functions; `np.std` is the population standard deviation.  The standard
  deviation itself is irrational in general, but the source only ever
  *compares* it with a nonnegative threshold `t`, which is equivalent to
  comparing the (rational) population variance with `t^2`; the embedding
  uses that exact equivalent form.
* `datetime.now()` is passed in explicitly as a rational parameter `now`
  (timestamps are rationals measured in days).
* Optional dataclass fields (`Optional[...] = None`) become `Option ℚ`.
* Python `sorted` / `list.sort` are stable; the embedding uses a stable
  insertion sort.
-/

namespace StayFit

/-- Python `str.lower()` on one character (the inputs of this code base are
    ASCII names and keywords). -/
def pyLowerChar (c : Char) : Char :=
  if 'A' ≤ c ∧ c ≤ 'Z' then Char.ofNat (c.toNat + 32) else c

/-- Python `str.lower()`. -/
def pyLower (s : String) : String := ⟨s.data.map pyLowerChar⟩

/-- np.mean of a list of rationals (division by zero yields 0 in ℚ;
    call sites are guarded on nonempty lists exactly as in the source). -/
def npMean (l : List ℚ) : ℚ := l.sum / l.length

/-- np.max of a list (sites are guarded on nonempty lists). -/
def npMax : List ℚ → ℚ
  | [] => 0
  | a :: l => l.foldl max a

/-- np.min of a list (sites are guarded on nonempty lists). -/
def npMin : List ℚ → ℚ
  | [] => 0
  | a :: l => l.foldl min a

/-- Population variance, i.e. the square of `np.std`. -/
def pvariance (l : List ℚ) : ℚ := npMean (l.map (fun x => (x - npMean l) ^ 2))

/-- Slope of the degree-1 least-squares fit of `np.polyfit(range(n), values, 1)`:
    `(n·Σxy − Σx·Σy) / (n·Σx² − (Σx)²)` over x = 0,…,n−1. -/
def polyfitSlope (l : List ℚ) : ℚ :=
  let n : ℚ := l.length
  let xs : List ℚ := (List.range l.length).map (fun i => (i : ℚ))
  let sx := xs.sum
  let sy := l.sum
  let sxy := ((xs.zip l).map (fun p => p.1 * p.2)).sum
  let sxx := (xs.map (fun x => x ^ 2)).sum
  (n * sxy - sx * sy) / (n * sxx - sx ^ 2)

/-- models.BiometricData: wearable/biometric sample; absent fields are `none`. -/
structure BiometricData where
  timestamp : ℚ
  steps : Option ℚ := none
  heart_rate : Option ℚ := none
  sleep_hours : Option ℚ := none
  glucose_mg_dl : Option ℚ := none
  blood_pressure_systolic : Option ℚ := none
  blood_pressure_diastolic : Option ℚ := none
  weight_kg : Option ℚ := none
  body_fat_percentage : Option ℚ := none
deriving DecidableEq

/-- Stable insertion step for ascending sort by timestamp (an earlier list
    element goes before a later one with an equal key, as Python sorted). -/
def insertAscTs (a : BiometricData) : List BiometricData → List BiometricData
  | [] => [a]
  | b :: l => if a.timestamp ≤ b.timestamp then a :: b :: l else b :: insertAscTs a l

/-- sorted(data, key=lambda x: x.timestamp): stable ascending sort. -/
def sortAscTs : List BiometricData → List BiometricData
  | [] => []
  | a :: l => insertAscTs a (sortAscTs l)

/-- Stable insertion step for descending sort by timestamp. -/
def insertDescTs (a : BiometricData) : List BiometricData → List BiometricData
  | [] => [a]
  | b :: l => if a.timestamp ≥ b.timestamp then a :: b :: l else b :: insertDescTs a l

/-- sorted(data, key=lambda x: x.timestamp, reverse=True): stable descending sort. -/
def sortDescTs : List BiometricData → List BiometricData
  | [] => []
  | a :: l => insertDescTs a (sortDescTs l)

/-- Python list slice `l[-n:]` (the last n elements, or all of them if shorter). -/
def takeLast (n : ℕ) (l : List BiometricData) : List BiometricData :=
  l.drop (l.length - n)

/-! ## adaptation.py — BiometricAnalyzer -/

/-- adaptation.AdaptationReason (all eight members; the last three are
    reserved and never produced by the analyzer). -/
inductive AdaptationReason where
  | highGlucose
  | lowActivity
  | poorSleep
  | highStress
  | weightChange
  | illnessRecovery
  | exerciseSession
  | mealTiming
deriving DecidableEq

/-- Trend direction strings returned by `_calculate_trend_direction`. -/
inductive Direction where
  | increasing
  | decreasing
  | stable
deriving DecidableEq

/-- The alert strings appended by the analyzer, abstracted to structured
    records carrying the interpolated quantity (the embedding does not
    model decimal string formatting). -/
inductive Alert where
  | highGlucoseReading (maxGlucose : ℚ)
  | lowAverageGlucose (avgGlucose : ℚ)
  | lowActivity (avgSteps : ℚ)
  | inconsistentActivity
  | insufficientSleep (avgSleep : ℚ)
  | sleepDebt (debt : ℚ)
  | elevatedHeartRate (avgHr : ℚ)
  | highHrVariability
  | significantWeightChange (change : ℚ)
deriving DecidableEq

/-- config.Config.HIGH_GLUCOSE_THRESHOLD (mg/dl). -/
def HIGH_GLUCOSE_THRESHOLD : ℚ := 140

/-- config.Config.LOW_ACTIVITY_THRESHOLD (steps). -/
def LOW_ACTIVITY_THRESHOLD : ℚ := 5000

/-- config.Config.POOR_SLEEP_THRESHOLD (hours). -/
def POOR_SLEEP_THRESHOLD : ℚ := 6

/-- BiometricAnalyzer.adaptation_thresholds entries used by the analyzer. -/
def glucoseLowThreshold : ℚ := 70

/-- adaptation_thresholds: heart_rate_high. -/
def heartRateHighThreshold : ℚ := 100

/-- adaptation_thresholds: weight_change_significant (kg). -/
def weightChangeSignificant : ℚ := 2

/-- `_calculate_trend_direction`: least-squares slope bucketed at ±0.1;
    fewer than 2 values gives "stable". -/
def calculate_trend_direction (values : List ℚ) : Direction :=
  if values.length < 2 then .stable
  else if polyfitSlope values > 1/10 then .increasing
  else if polyfitSlope values < -(1/10) then .decreasing
  else .stable

/-- `_glucose_status_classification`. -/
def glucose_status_classification (avg : ℚ) : String :=
  if avg < 70 then "low"
  else if 70 ≤ avg ∧ avg ≤ 100 then "normal"
  else if 100 < avg ∧ avg ≤ 125 then "elevated"
  else "high"

/-- `_activity_status_classification`. -/
def activity_status_classification (avg : ℚ) : String :=
  if avg < 3000 then "sedentary"
  else if 3000 ≤ avg ∧ avg ≤ 7000 then "low"
  else if 7000 < avg ∧ avg ≤ 12000 then "moderate"
  else "high"

/-- `_sleep_status_classification`. -/
def sleep_status_classification (avg : ℚ) : String :=
  if avg < 6 then "insufficient"
  else if 6 ≤ avg ∧ avg ≤ 7 then "borderline"
  else if 7 < avg ∧ avg ≤ 9 then "adequate"
  else "excessive"

/-- `_heart_rate_status_classification`. -/
def heart_rate_status_classification (avg : ℚ) : String :=
  if avg < 60 then "low"
  else if 60 ≤ avg ∧ avg ≤ 80 then "normal"
  else if 80 < avg ∧ avg ≤ 100 then "elevated"
  else "high"

/-- Result dict of `_analyze_glucose_trends`; numeric keys that are absent
    in the `no_data` dict are `none`. -/
structure GlucoseTrends where
  average : Option ℚ := none
  maximum : Option ℚ := none
  trend : Option Direction := none
  status : String
  alerts : List Alert
  adaptations : List AdaptationReason
deriving DecidableEq

/-- `_analyze_glucose_trends`. -/
def analyze_glucose_trends (data : List BiometricData) : GlucoseTrends :=
  let vs := data.filterMap (·.glucose_mg_dl)
  if vs = [] then { status := "no_data", alerts := [], adaptations := [] }
  else
    let avg := npMean vs
    let mx := npMax vs
    { average := some avg
      maximum := some mx
      trend := some (calculate_trend_direction vs)
      status := glucose_status_classification avg
      alerts :=
        (if mx > HIGH_GLUCOSE_THRESHOLD then [Alert.highGlucoseReading mx] else []) ++
        (if avg < glucoseLowThreshold then [Alert.lowAverageGlucose avg] else [])
      adaptations :=
        if mx > HIGH_GLUCOSE_THRESHOLD then [AdaptationReason.highGlucose] else [] }

/-- Result dict of `_analyze_activity_trends`.  The source stores
    `consistency_score = 1 − std/max(avg,1)`; only its comparison with 0.5
    is ever observed, so the embedding keeps the exact rational test
    `consistency < 0.5 ↔ variance > (0.5·max(avg,1))²` as a Boolean. -/
structure ActivityTrends where
  average_steps : Option ℚ := none
  minimum_steps : Option ℚ := none
  consistency_low : Bool := false
  status : String
  alerts : List Alert
  adaptations : List AdaptationReason
deriving DecidableEq

/-- `_analyze_activity_trends`. -/
def analyze_activity_trends (data : List BiometricData) : ActivityTrends :=
  let vs := data.filterMap (·.steps)
  if vs = [] then { status := "no_data", alerts := [], adaptations := [] }
  else
    let avg := npMean vs
    let lowConsistency := pvariance vs > (1/2 * max avg 1) ^ 2
    { average_steps := some avg
      minimum_steps := some (npMin vs)
      consistency_low := lowConsistency
      status := activity_status_classification avg
      alerts :=
        (if avg < LOW_ACTIVITY_THRESHOLD then [Alert.lowActivity avg] else []) ++
        (if lowConsistency then [Alert.inconsistentActivity] else [])
      adaptations :=
        if avg < LOW_ACTIVITY_THRESHOLD then [AdaptationReason.lowActivity] else [] }

/-- Result dict of `_analyze_sleep_trends`. -/
structure SleepTrends where
  average_hours : Option ℚ := none
  minimum_hours : Option ℚ := none
  sleep_debt : Option ℚ := none
  status : String
  alerts : List Alert
  adaptations : List AdaptationReason
deriving DecidableEq

/-- `_analyze_sleep_trends`. -/
def analyze_sleep_trends (data : List BiometricData) : SleepTrends :=
  let vs := data.filterMap (·.sleep_hours)
  if vs = [] then { status := "no_data", alerts := [], adaptations := [] }
  else
    let avg := npMean vs
    let debt := max 0 (15/2 - avg) * vs.length
    { average_hours := some avg
      minimum_hours := some (npMin vs)
      sleep_debt := some debt
      status := sleep_status_classification avg
      alerts :=
        (if avg < POOR_SLEEP_THRESHOLD then [Alert.insufficientSleep avg] else []) ++
        (if debt > 5 then [Alert.sleepDebt debt] else [])
      adaptations :=
        if avg < POOR_SLEEP_THRESHOLD then [AdaptationReason.poorSleep] else [] }

/-- Result dict of `_analyze_heart_rate_trends`.  The source stores
    `variability = np.std(hr)`; only comparisons with 20 are observed
    downstream, so the embedding stores the variance (std²) and compares
    it with 20² = 400, which is exactly equivalent for the nonnegative
    standard deviation. -/
structure HeartRateTrends where
  average_bpm : Option ℚ := none
  variability_sq : Option ℚ := none
  trend : Option Direction := none
  status : String
  alerts : List Alert
  adaptations : List AdaptationReason
deriving DecidableEq

/-- `_analyze_heart_rate_trends`: HIGH_STRESS is appended once for an
    elevated average and once more for high variability, so the tag can
    occur twice. -/
def analyze_heart_rate_trends (data : List BiometricData) : HeartRateTrends :=
  let vs := data.filterMap (·.heart_rate)
  if vs = [] then { status := "no_data", alerts := [], adaptations := [] }
  else
    let avg := npMean vs
    let varSq := pvariance vs
    { average_bpm := some avg
      variability_sq := some varSq
      trend := some (calculate_trend_direction vs)
      status := heart_rate_status_classification avg
      alerts :=
        (if avg > heartRateHighThreshold then [Alert.elevatedHeartRate avg] else []) ++
        (if varSq > 400 then [Alert.highHrVariability] else [])
      adaptations :=
        (if avg > heartRateHighThreshold then [AdaptationReason.highStress] else []) ++
        (if varSq > 400 then [AdaptationReason.highStress] else []) }

/-- Result dict of `_analyze_weight_trends`. -/
structure WeightTrends where
  total_change_kg : Option ℚ := none
  trend : Option Direction := none
  rate_per_day : Option ℚ := none
  status : String := ""
  alerts : List Alert
  adaptations : List AdaptationReason
deriving DecidableEq

/-- `_analyze_weight_trends`: change = last − first over the (already
    time-sorted) values; needs at least 2 weight values. -/
def analyze_weight_trends (data : List BiometricData) : WeightTrends :=
  let vs := data.filterMap (·.weight_kg)
  if vs.length < 2 then
    { status := "insufficient_data", alerts := [], adaptations := [] }
  else
    let change := vs.getLastD 0 - vs.headD 0
    { total_change_kg := some change
      trend := some (calculate_trend_direction vs)
      rate_per_day := some (change / max vs.length 1)
      alerts :=
        if |change| > weightChangeSignificant
        then [Alert.significantWeightChange change] else []
      adaptations :=
        if |change| > weightChangeSignificant
        then [AdaptationReason.weightChange] else [] }

/-- Result dict of `BiometricAnalyzer.analyze_biometric_trends`.  The two
    early returns (no data at all / nothing in the window) produce an empty
    `trends` dict in the source; here the per-metric records are the
    corresponding `no_data` records and all lists are empty. -/
structure TrendAnalysis where
  glucose : GlucoseTrends
  activity : ActivityTrends
  sleep : SleepTrends
  heart_rate : HeartRateTrends
  weight : WeightTrends
  alerts : List Alert
  adaptations_needed : List AdaptationReason
  data_points : ℕ
deriving DecidableEq

/-- The empty-but-well-formed analysis returned when no (recent) data exists. -/
def emptyAnalysis : TrendAnalysis where
  glucose := { status := "no_data", alerts := [], adaptations := [] }
  activity := { status := "no_data", alerts := [], adaptations := [] }
  sleep := { status := "no_data", alerts := [], adaptations := [] }
  heart_rate := { status := "no_data", alerts := [], adaptations := [] }
  weight := { status := "insufficient_data", alerts := [], adaptations := [] }
  alerts := []
  adaptations_needed := []
  data_points := 0

/-- `BiometricAnalyzer.analyze_biometric_trends(data, days_back)`: sort by
    timestamp, keep samples with `timestamp ≥ now − days_back`, then run the
    five per-metric analyses; each metric contributes its alerts and
    adaptation tags only when its alert list is nonempty (exactly the
    `if trends['alerts']:` guards of the source). -/
def analyze_biometric_trends (data : List BiometricData) (now : ℚ)
    (days_back : ℚ) : TrendAnalysis :=
  if data = [] then emptyAnalysis
  else
    let sorted := sortAscTs data
    let cutoff := now - days_back
    let recent := sorted.filter (fun d => cutoff ≤ d.timestamp)
    if recent = [] then emptyAnalysis
    else
      let g := analyze_glucose_trends recent
      let a := analyze_activity_trends recent
      let s := analyze_sleep_trends recent
      let h := analyze_heart_rate_trends recent
      let w := analyze_weight_trends recent
      { glucose := g, activity := a, sleep := s, heart_rate := h, weight := w
        alerts :=
          (if g.alerts = [] then [] else g.alerts) ++
          (if a.alerts = [] then [] else a.alerts) ++
          (if s.alerts = [] then [] else s.alerts) ++
          (if h.alerts = [] then [] else h.alerts) ++
          (if w.alerts = [] then [] else w.alerts)
        adaptations_needed :=
          (if g.alerts = [] then [] else g.adaptations) ++
          (if a.alerts = [] then [] else a.adaptations) ++
          (if s.alerts = [] then [] else s.adaptations) ++
          (if h.alerts = [] then [] else h.adaptations) ++
          (if w.alerts = [] then [] else w.adaptations)
        data_points := recent.length }

/-! ## models.py — data model -/

/-- models.ActivityLevel (the five fixed multipliers). -/
inductive ActivityLevel where
  | sedentary
  | lightlyActive
  | moderatelyActive
  | veryActive
  | extremelyActive
deriving DecidableEq

/-- The `.value` of an ActivityLevel member. -/
def ActivityLevel.value : ActivityLevel → ℚ
  | .sedentary => 12/10
  | .lightlyActive => 1375/1000
  | .moderatelyActive => 155/100
  | .veryActive => 1725/1000
  | .extremelyActive => 19/10

/-- models.DietaryRestriction. -/
inductive DietaryRestriction where
  | vegetarian
  | vegan
  | pescatarian
  | keto
  | paleo
  | lowCarb
  | lowFat
  | glutenFree
  | dairyFree
deriving DecidableEq

/-- models.DietaryPreferences (the fields read by `is_food_allowed`). -/
structure DietaryPreferences where
  allergies : List String := []
  dislikes : List String := []
  dietary_restrictions : List DietaryRestriction := []
deriving DecidableEq

/-- models.UserProfile (the fields read by the core computations). -/
structure UserProfile where
  name : String
  age : ℚ
  sex : String
  weight_kg : ℚ
  height_cm : ℚ
  activity_level : ActivityLevel
  dietary_preferences : DietaryPreferences := {}
deriving DecidableEq

/-- models.UserProfile.calculate_bmr: Mifflin-St Jeor with the +5 male /
    −161 non-male constant, selected by `sex.lower() == "male"`. -/
def UserProfile.calculate_bmr (p : UserProfile) : ℚ :=
  if pyLower p.sex = "male" then
    10 * p.weight_kg + 625/100 * p.height_cm - 5 * p.age + 5
  else
    10 * p.weight_kg + 625/100 * p.height_cm - 5 * p.age - 161

/-- models.UserProfile.calculate_tdee: BMR times the activity multiplier. -/
def UserProfile.calculate_tdee (p : UserProfile) : ℚ :=
  p.calculate_bmr * p.activity_level.value

/-! ## adaptation.py — MealAdaptationEngine

The meal dicts produced by the optimizer always carry the keys
`meal_type, items, calories, protein, carbs, fat`, so a meal is embedded as
a record with those fields; the `if 'carbs' in meal` style key tests of the
strategies are therefore always true. -/

/-- A meal dict as produced by MealOptimizer and consumed by the
    adaptation strategies. -/
structure Meal where
  meal_type : String
  items : List String
  calories : ℚ
  protein : ℚ
  carbs : ℚ
  fat : ℚ
deriving DecidableEq

/-- The Meal consistency invariant of the spec:
    `calories == protein*4 + carbs*4 + fat*9`. -/
def macroConsistent (m : Meal) : Prop :=
  m.calories = m.protein * 4 + m.carbs * 4 + m.fat * 9

instance (m : Meal) : Decidable (macroConsistent m) := by
  unfold macroConsistent; infer_instance

/-- The explanation strings returned by the strategies, abstracted to
    structured records carrying the interpolated quantities. -/
inductive Explanation where
  | reducedCarbs (reductionFactor maxGlucose : ℚ)
  | reducedPortionsLowActivity (avgSteps : ℚ)
  | increasedProteinPoorSleep (avgSleep : ℚ)
  | stressAdjustment (avgHr : ℚ)
  | weightGainReduction (change : ℚ)
  | weightLossIncrease (change : ℚ)
deriving DecidableEq

/-- The in-place update of one meal in `_adapt_for_high_glucose`:
    `carbs *= r`, then `protein *= 1.1`, then
    `calories = protein*4 + carbs*4 + fat*9` with the updated macros. -/
def mealHighGlucoseUpdate (r : ℚ) (m : Meal) : Meal :=
  { m with
    carbs := m.carbs * r
    protein := m.protein * (11/10)
    calories := m.protein * (11/10) * 4 + m.carbs * r * 4 + m.fat * 9 }

/-- The uniform in-place scaling of all four nutrient fields used by the
    low-activity (0.85), high-stress (0.95) and weight-gain (0.9) strategies. -/
def mealScale (r : ℚ) (m : Meal) : Meal :=
  { m with
    calories := m.calories * r
    protein := m.protein * r
    carbs := m.carbs * r
    fat := m.fat * r }

/-- The in-place update of one meal in `_adapt_for_poor_sleep`:
    `protein *= 1.15`, `carbs *= 0.95`, then recompute calories from macros. -/
def mealPoorSleepUpdate (m : Meal) : Meal :=
  { m with
    protein := m.protein * (23/20)
    carbs := m.carbs * (19/20)
    calories := m.protein * (23/20) * 4 + m.carbs * (19/20) * 4 + m.fat * 9 }

/-- The in-place update of one meal in the weight-loss branch of
    `_adapt_for_weight_change`: `protein *= 1.1`, `calories *= 1.05`,
    `carbs *= 1.02`, `fat *= 1.02` (calories deliberately not re-derived). -/
def mealWeightLossUpdate (m : Meal) : Meal :=
  { m with
    protein := m.protein * (11/10)
    calories := m.calories * (21/20)
    carbs := m.carbs * (102/100)
    fat := m.fat * (102/100) }

/-- `_adapt_for_high_glucose`: carb cut 0.7 if the peak glucose exceeded
    160 else 0.8, slight protein compensation, calories recomputed. -/
def adapt_for_high_glucose (meals : List Meal) (analysis : TrendAnalysis)
    (_profile : UserProfile) : List Meal × Option Explanation :=
  let mx := analysis.glucose.maximum.getD 0
  let r : ℚ := if mx > 160 then 7/10 else 8/10
  (meals.map (mealHighGlucoseUpdate r), some (.reducedCarbs r mx))

/-- `_adapt_for_low_activity`: flat 0.85 cut on all nutrient fields. -/
def adapt_for_low_activity (meals : List Meal) (analysis : TrendAnalysis)
    (_profile : UserProfile) : List Meal × Option Explanation :=
  (meals.map (mealScale (85/100)),
   some (.reducedPortionsLowActivity (analysis.activity.average_steps.getD 0)))

/-- `_adapt_for_poor_sleep`: protein ×1.15, carbs ×0.95, calories recomputed. -/
def adapt_for_poor_sleep (meals : List Meal) (analysis : TrendAnalysis)
    (_profile : UserProfile) : List Meal × Option Explanation :=
  (meals.map mealPoorSleepUpdate,
   some (.increasedProteinPoorSleep (analysis.sleep.average_hours.getD 0)))

/-- `_adapt_for_high_stress`: flat 0.95 cut on all nutrient fields. -/
def adapt_for_high_stress (meals : List Meal) (analysis : TrendAnalysis)
    (_profile : UserProfile) : List Meal × Option Explanation :=
  (meals.map (mealScale (95/100)),
   some (.stressAdjustment (analysis.heart_rate.average_bpm.getD 0)))

/-- `_adapt_for_weight_change`: uniform ×0.9 after a net gain above 1 kg,
    the (calories-not-rederived) increase after a net loss below −1 kg, and
    an empty explanation (falsy, hence dropped by the caller) otherwise. -/
def adapt_for_weight_change (meals : List Meal) (analysis : TrendAnalysis)
    (_profile : UserProfile) : List Meal × Option Explanation :=
  let change := analysis.weight.total_change_kg.getD 0
  if change > 1 then
    (meals.map (mealScale (9/10)), some (.weightGainReduction change))
  else if change < -1 then
    (meals.map mealWeightLossUpdate, some (.weightLossIncrease change))
  else (meals, none)

/-- The `adaptation_strategies` dispatch: the five mapped tags run their
    strategy, the reserved tags are skipped (`if reason in strategies`). -/
def applyStrategy (r : AdaptationReason) (meals : List Meal)
    (analysis : TrendAnalysis) (profile : UserProfile) :
    List Meal × Option Explanation :=
  match r with
  | .highGlucose => adapt_for_high_glucose meals analysis profile
  | .lowActivity => adapt_for_low_activity meals analysis profile
  | .poorSleep => adapt_for_poor_sleep meals analysis profile
  | .highStress => adapt_for_high_stress meals analysis profile
  | .weightChange => adapt_for_weight_change meals analysis profile
  | _ => (meals, none)

/-- The strategy application loop of `adapt_meal_plan`: strategies compose
    sequentially on the already-adapted list, and each truthy explanation is
    appended in order. -/
def applyStrategies (rs : List AdaptationReason) (analysis : TrendAnalysis)
    (profile : UserProfile) (meals : List Meal) :
    List Meal × List Explanation :=
  match rs with
  | [] => (meals, [])
  | r :: rest =>
    let step := applyStrategy r meals analysis profile
    let next := applyStrategies rest analysis profile step.1
    (next.1, (match step.2 with | some e => [e] | none => []) ++ next.2)

/-- `MealAdaptationEngine.adapt_meal_plan`: analyze trends (7-day window),
    return the input unchanged when no adaptation is needed, otherwise work
    on per-meal copies (identity in this pure embedding) and fold the
    strategies over the tag list. -/
def adapt_meal_plan (meals : List Meal) (profile : UserProfile)
    (biometric_data : List BiometricData) (now : ℚ) :
    List Meal × List Explanation :=
  let analysis := analyze_biometric_trends biometric_data now 7
  if analysis.adaptations_needed = [] then (meals, [])
  else applyStrategies analysis.adaptations_needed analysis profile meals

/-! ## metabolism.py — MetabolismCalculator -/

/-- metabolism.BMRFormula. -/
inductive BMRFormula where
  | mifflinStJeor
  | harrisBenedict
  | katchMcArdle
  | cunningham
deriving DecidableEq

/-- `MetabolismCalculator._mifflin_st_jeor` (same formula as
    models.UserProfile.calculate_bmr). -/
def mifflin_st_jeor (p : UserProfile) : ℚ :=
  if pyLower p.sex = "male" then
    10 * p.weight_kg + 625/100 * p.height_cm - 5 * p.age + 5
  else
    10 * p.weight_kg + 625/100 * p.height_cm - 5 * p.age - 161

/-- `MetabolismCalculator._harris_benedict`. -/
def harris_benedict (p : UserProfile) : ℚ :=
  if pyLower p.sex = "male" then
    88362/1000 + 13397/1000 * p.weight_kg + 4799/1000 * p.height_cm
      - 5677/1000 * p.age
  else
    447593/1000 + 9247/1000 * p.weight_kg + 3098/1000 * p.height_cm
      - 4330/1000 * p.age

/-- `MetabolismCalculator._katch_mcardle`. -/
def katch_mcardle (p : UserProfile) (body_fat_percentage : ℚ) : ℚ :=
  370 + 216/10 * (p.weight_kg * (1 - body_fat_percentage / 100))

/-- `MetabolismCalculator._cunningham`. -/
def cunningham (p : UserProfile) (body_fat_percentage : ℚ) : ℚ :=
  500 + 22 * (p.weight_kg * (1 - body_fat_percentage / 100))

/-- `MetabolismCalculator.calculate_bmr`: formula dispatch with fallback to
    Mifflin-St Jeor when body fat is required but unknown. -/
def calculate_bmr (p : UserProfile) (formula : BMRFormula)
    (body_fat_percentage : Option ℚ) : ℚ :=
  match formula with
  | .mifflinStJeor => mifflin_st_jeor p
  | .harrisBenedict => harris_benedict p
  | .katchMcArdle =>
    match body_fat_percentage with
    | none => mifflin_st_jeor p
    | some bf => katch_mcardle p bf
  | .cunningham =>
    match body_fat_percentage with
    | none => mifflin_st_jeor p
    | some bf => cunningham p bf

/-- `MetabolismCalculator._estimate_body_fat_percentage`: the most recent
    measured body-fat value wins, otherwise the Deurenberg BMI
    approximation clamped to [5, 50]. -/
def estimate_body_fat_percentage (p : UserProfile)
    (recent : List BiometricData) : ℚ :=
  match (sortDescTs recent).filterMap (·.body_fat_percentage) with
  | bf :: _ => bf
  | [] =>
    let bmi := p.weight_kg / (p.height_cm / 100) ^ 2
    let bf :=
      if pyLower p.sex = "male" then 12/10 * bmi + 23/100 * p.age - 162/10
      else 12/10 * bmi + 23/100 * p.age - 54/10
    max 5 (min bf 50)

/-- The `adaptive_factors` dict of MetabolismCalculator (all 1.0 initially). -/
structure AdaptiveFactors where
  sleep_quality : ℚ := 1
  stress_level : ℚ := 1
  glucose_regulation : ℚ := 1
  activity_consistency : ℚ := 1
  recovery_status : ℚ := 1
deriving DecidableEq

/-- Product of the five adaptive factors (np.prod of the dict values). -/
def AdaptiveFactors.prod (f : AdaptiveFactors) : ℚ :=
  f.sleep_quality * f.stress_level * f.glucose_regulation *
    f.activity_consistency * f.recovery_status

/-- `_calculate_sleep_factor` over `biometrics[-7:]`. -/
def calculate_sleep_factor (biometrics : List BiometricData) : ℚ :=
  let vs := (takeLast 7 biometrics).filterMap (·.sleep_hours)
  if vs = [] then 1
  else
    let avg := npMean vs
    if 7 ≤ avg ∧ avg ≤ 9 then 1
    else if avg < 6 then 95/100 - (6 - avg) * 2/100
    else if avg > 10 then 98/100
    else 1

/-- `_calculate_glucose_factor` over `biometrics[-5:]` (note: the caller
    hands this a most-recent-first list, so the slice keeps the five
    OLDEST samples). -/
def calculate_glucose_factor (biometrics : List BiometricData) : ℚ :=
  let vs := (takeLast 5 biometrics).filterMap (·.glucose_mg_dl)
  if vs = [] then 1
  else
    let avg := npMean vs
    if avg > 140 then 92/100
    else if avg > 120 then 96/100
    else if 70 ≤ avg ∧ avg ≤ 100 then 102/100
    else 1

/-- `_calculate_activity_factor` over `biometrics[-7:]`; the comparisons of
    `std/avg` with 0.3 / 0.4 are embedded through the exactly equivalent
    variance comparisons (avg > 0 in those branches). -/
def calculate_activity_factor (biometrics : List BiometricData) : ℚ :=
  let vs := (takeLast 7 biometrics).filterMap (·.steps)
  if vs.length < 3 then 1
  else
    let avg := npMean vs
    let varSq := pvariance vs
    if avg > 10000 ∧ varSq < (3/10 * avg) ^ 2 then 105/100
    else if avg > 8000 ∧ varSq < (4/10 * avg) ^ 2 then 102/100
    else if avg < 3000 then 95/100
    else 1

/-- `_calculate_stress_factor` over `biometrics[-5:]`; std comparisons with
    15 and 10 embedded as variance comparisons with 225 and 100. -/
def calculate_stress_factor (biometrics : List BiometricData) : ℚ :=
  let vs := (takeLast 5 biometrics).filterMap (·.heart_rate)
  if vs.length < 3 then 1
  else
    let avg := npMean vs
    let varSq := pvariance vs
    if avg > 80 ∨ varSq > 225 then 96/100
    else if (60 ≤ avg ∧ avg ≤ 70) ∧ varSq < 100 then 102/100
    else 1

/-- Per-sample recovery score of `_calculate_recovery_factor`:
    `some (score/indicators)` when at least one of the three indicators is
    measured. -/
def recoveryScore (b : BiometricData) : Option ℚ :=
  let sleepPair : ℚ × ℚ :=
    match b.sleep_hours with
    | some h => (if 7 ≤ h ∧ h ≤ 9 then 1 else 0, 1)
    | none => (0, 0)
  let hrPair : ℚ × ℚ :=
    match b.heart_rate with
    | some hr => (if 60 ≤ hr ∧ hr ≤ 75 then 1 else 0, 1)
    | none => (0, 0)
  let stepsPair : ℚ × ℚ :=
    match b.steps with
    | some s => (if 5000 ≤ s then 1 else 0, 1)
    | none => (0, 0)
  let score := sleepPair.1 + hrPair.1 + stepsPair.1
  let indicators := sleepPair.2 + hrPair.2 + stepsPair.2
  if indicators > 0 then some (score / indicators) else none

/-- `_calculate_recovery_factor` over the first three entries of the
    (most-recent-first) list. -/
def calculate_recovery_factor (biometrics : List BiometricData) : ℚ :=
  let indicators := (biometrics.take 3).filterMap recoveryScore
  if indicators = [] then 1
  else
    let avg := npMean indicators
    if avg > 8/10 then 103/100
    else if avg > 6/10 then 101/100
    else if avg < 3/10 then 94/100
    else 1

/-- `MetabolismCalculator._calculate_adaptive_factors`: sorts the samples
    most-recent-first and computes the five factors (the profile argument
    of the source method is unused by its body and omitted here). -/
def calculate_adaptive_factors (recent : List BiometricData) :
    AdaptiveFactors :=
  if recent = [] then {}
  else
    let sorted := sortDescTs recent
    { sleep_quality := calculate_sleep_factor sorted
      glucose_regulation := calculate_glucose_factor sorted
      activity_consistency := calculate_activity_factor sorted
      stress_level := calculate_stress_factor sorted
      recovery_status := calculate_recovery_factor sorted }

/-- Result dict of `MetabolismCalculator.calculate_tdee`
    (`adaptive_multiplier` is absent from the non-adaptive branch). -/
structure TdeeResult where
  bmr : ℚ
  base_tdee : ℚ
  adaptive_tdee : ℚ
  adaptive_factors : AdaptiveFactors
  adaptive_multiplier : Option ℚ := none
deriving DecidableEq

/-- `MetabolismCalculator.calculate_tdee`: Mifflin-St Jeor BMR (the
    estimated body fat is computed and passed but unused by that formula),
    base TDEE = BMR × activity multiplier, and adaptive TDEE = base TDEE ×
    product of the adaptive factors when adaptive and biometrics exist. -/
def calculate_tdee (p : UserProfile) (recent_biometrics : List BiometricData)
    (adaptive : Bool) : TdeeResult :=
  let body_fat := estimate_body_fat_percentage p recent_biometrics
  let bmr := calculate_bmr p .mifflinStJeor (some body_fat)
  let base_tdee := bmr * p.activity_level.value
  if adaptive = false ∨ recent_biometrics = [] then
    { bmr := bmr, base_tdee := base_tdee, adaptive_tdee := base_tdee
      adaptive_factors := {} }
  else
    let factors := calculate_adaptive_factors recent_biometrics
    { bmr := bmr, base_tdee := base_tdee
      adaptive_tdee := base_tdee * factors.prod
      adaptive_factors := factors
      adaptive_multiplier := some factors.prod }

/-- Result dict of `calculate_calorie_needs_by_goal`. -/
structure CalorieNeeds where
  maintenance : ℚ
  weight_loss : ℚ
  weight_gain : ℚ
  min_safe_calories : ℚ
  max_safe_calories : ℚ
  tdee_breakdown : TdeeResult
deriving DecidableEq

/-- `MetabolismCalculator.calculate_calorie_needs_by_goal`: base calories
    from the (biometric-free, hence non-adaptive) TDEE, ±rate·7700/7
    deltas, clamped into [max(1.1·BMR, 1200), 1.5·base] (the lower bound
    uses models.UserProfile.calculate_bmr).  The `goal` string argument of
    the source is unused by the computation and omitted. -/
def calculate_calorie_needs_by_goal (p : UserProfile)
    (rate_kg_per_week : ℚ) : CalorieNeeds :=
  let tdee_data := calculate_tdee p [] true
  let base_calories := tdee_data.adaptive_tdee
  let daily_calorie_adjustment := rate_kg_per_week * 7700 / 7
  let min_calories := max (p.calculate_bmr * 11/10) 1200
  let max_calories := base_calories * 3/2
  let clamp := fun g => max min_calories (min g max_calories)
  { maintenance := clamp base_calories
    weight_loss := clamp (base_calories - |daily_calorie_adjustment|)
    weight_gain := clamp (base_calories + |daily_calorie_adjustment|)
    min_safe_calories := min_calories
    max_safe_calories := max_calories
    tdee_breakdown := tdee_data }

/-! ## models.py — is_food_allowed, and ml_models.py — MealOptimizer -/

/-- Whether the character list starting here begins with `pat`. -/
def startsWithChars : List Char → List Char → Bool
  | [], _ => true
  | _ :: _, [] => false
  | a :: pa, b :: sb => a = b && startsWithChars pa sb

/-- Whether `pat` occurs as a contiguous sublist (Python `pat in s`). -/
def containsChars : List Char → List Char → Bool
  | pat, [] => decide (pat = [])
  | pat, b :: t => startsWithChars pat (b :: t) || containsChars pat t

/-- Python substring test `sub in s` on strings. -/
def strContains (s sub : String) : Bool := containsChars sub.data s.data

/-- A food dict (ml_models / local database): `.get` defaults are applied
    at each call site exactly as in the source, so nutrient keys that may
    be absent are `Option ℚ`. -/
structure Food where
  name : String := ""
  category : String := ""
  allergens : List String := []
  calories_per_100g : Option ℚ := none
  protein_g : Option ℚ := none
  carbs_g : Option ℚ := none
  fat_g : Option ℚ := none
  fiber_g : Option ℚ := none
  cost_per_100g : Option ℚ := none
deriving DecidableEq

/-- models.UserProfile._check_dietary_restriction (keyword screens;
    restrictions without a branch in the source return True). -/
def check_dietary_restriction (food : Food) (r : DietaryRestriction) : Bool :=
  let food_name := pyLower food.name
  match r with
  | .vegetarian =>
    !(["chicken", "beef", "pork", "turkey", "fish", "salmon", "tuna",
       "meat"].any (fun k => strContains food_name k))
  | .vegan =>
    !(["chicken", "beef", "pork", "turkey", "fish", "salmon", "tuna",
       "meat", "milk", "cheese", "yogurt", "egg", "butter",
       "honey"].any (fun k => strContains food_name k))
  | .glutenFree =>
    !(["wheat", "bread", "pasta", "oat", "barley",
       "rye"].any (fun k => strContains food_name k))
  | .dairyFree =>
    !(["milk", "cheese", "yogurt", "butter",
       "cream"].any (fun k => strContains food_name k))
  | .keto => food.carbs_g.getD 0 < 5
  | .lowCarb => food.carbs_g.getD 0 < 15
  | _ => true

/-- models.UserProfile.is_food_allowed: allergy, dislike and restriction
    screens (each early `return False` becomes an `all`). -/
def is_food_allowed (p : UserProfile) (food : Food) : Bool :=
  let food_name := pyLower food.name
  (p.dietary_preferences.allergies.all (fun a =>
    !(food.allergens.contains (pyLower a) || strContains food_name (pyLower a)))) &&
  (p.dietary_preferences.dislikes.all (fun d =>
    !(strContains food_name (pyLower d)))) &&
  (p.dietary_preferences.dietary_restrictions.all
    (fun r => check_dietary_restriction food r))

/-- config.Config.MEAL_CALORIE_DISTRIBUTION together with the `.get(_, 0.33)`
    fallback used by the optimizer. -/
def mealCalorieDistribution (meal_type : String) : ℚ :=
  if meal_type = "breakfast" then 25/100
  else if meal_type = "lunch" then 40/100
  else if meal_type = "dinner" then 35/100
  else 33/100

/-- `MealOptimizer._calculate_nutrition_density`. -/
def calculate_nutrition_density (food : Food) : ℚ :=
  let calories := max (food.calories_per_100g.getD 1) 1
  let density := (food.protein_g.getD 0 * 4 + food.fiber_g.getD 0 * 2) / calories
  min density 2

/-- `MealOptimizer._calculate_meal_type_fit`. -/
def calculate_meal_type_fit (food : Food) (meal_type : String) : ℚ :=
  let category := pyLower food.category
  let name := pyLower food.name
  if meal_type = "breakfast" then
    if ["oat", "egg", "yogurt", "milk"].any (fun w => strContains name w) then 1
    else if category = "dairy" ∨ category = "fruit" then 8/10
    else 5/10
  else if meal_type = "lunch" then
    if category = "protein" ∨ category = "carbohydrate" ∨ category = "vegetable"
    then 1 else 7/10
  else if meal_type = "dinner" then
    if category = "protein" ∨ category = "vegetable" then 1
    else if category = "carbohydrate" then 8/10
    else 6/10
  else 5/10

/-- Stable insertion step for the descending `food_scores.sort(..., reverse=True)`
    (ties keep scan order, so the first-scanned candidate wins). -/
def insertDescScore (a : Food × ℚ) : List (Food × ℚ) → List (Food × ℚ)
  | [] => [a]
  | b :: l => if a.2 ≥ b.2 then a :: b :: l else b :: insertDescScore a l

/-- Stable descending sort by score. -/
def sortDescScore : List (Food × ℚ) → List (Food × ℚ)
  | [] => []
  | a :: l => insertDescScore a (sortDescScore l)

/-- Aggregate `total_nutrition` dict of the optimizer. -/
structure NutritionTotals where
  calories : ℚ
  protein : ℚ
  carbs : ℚ
  fat : ℚ
deriving DecidableEq

/-- The two shapes of `optimize_meal_plan`'s result dict: the structured
    `{success: False, error: ...}` failure and the success payload. -/
inductive OptimizeResult where
  | failure (error : String)
  | success (meals : List Meal) (total_nutrition : NutritionTotals)
      (total_cost : ℚ)
deriving DecidableEq

/-- The per-slot selection and portion sizing of `optimize_meal_plan`,
    returning the built meal dict and its cost contribution.  The `headD`
    default is unreachable: the scored list is nonempty because the
    allowed pool is. -/
def optimizeSlot (predict_satisfaction : Food → ℚ) (allowed : List Food)
    (f0 : Food) (total_target : ℚ) (meal_type : String) : Meal × ℚ :=
  let meal_target := total_target * mealCalorieDistribution meal_type
  let scored := allowed.map (fun fd =>
    let satisfaction_score := predict_satisfaction fd
    let nutrition_density := calculate_nutrition_density fd
    let cost_efficiency := 1 / max (fd.cost_per_100g.getD 1) (1/10)
    let meal_fit := calculate_meal_type_fit fd meal_type
    (fd, satisfaction_score * 4/10 + nutrition_density * 3/10 +
         cost_efficiency * 2/10 + meal_fit * 1/10))
  let selected := ((sortDescScore scored).headD (f0, 0)).1
  let portion := min (meal_target / max (selected.calories_per_100g.getD 100) 1 * 100) 400
  ({ meal_type := meal_type
     items := [selected.name]
     calories := selected.calories_per_100g.getD 0 * portion / 100
     protein := selected.protein_g.getD 0 * portion / 100
     carbs := selected.carbs_g.getD 0 * portion / 100
     fat := selected.fat_g.getD 0 * portion / 100 },
   selected.cost_per_100g.getD 1 * portion / 100)

/-- `MealOptimizer.optimize_meal_plan`: allowance filtering, the structured
    failure on an empty pool, otherwise greedy per-slot selection.  The
    satisfaction predictor is the external learned collaborator and is
    passed in as a function (the untrained predictor is `fun _ => 3`). -/
def optimize_meal_plan (predict_satisfaction : Food → ℚ) (p : UserProfile)
    (available_foods : List Food) (target_calories : Option ℚ)
    (meal_types : List String) : OptimizeResult :=
  match available_foods.filter (fun f => is_food_allowed p f) with
  | [] => .failure "No allowed foods available"
  | f0 :: rest =>
    let allowed := f0 :: rest
    let total_target := target_calories.getD p.calculate_tdee
    let pairs := meal_types.map
      (fun mt => optimizeSlot predict_satisfaction allowed f0 total_target mt)
    let meals := pairs.map (·.1)
    .success meals
      { calories := (meals.map (·.calories)).sum
        protein := (meals.map (·.protein)).sum
        carbs := (meals.map (·.carbs)).sum
        fat := (meals.map (·.fat)).sum }
      ((pairs.map (·.2)).sum)

/-! ## Heap model of `adapt_meal_plan` (for the frame/aliasing claim)

Python meal dicts are mutable heap objects.  To state what
`adapted_meals = [meal.copy() for meal in meals]` followed by the in-place
`meal[k] *= r` updates does to the *caller's* objects, the dict heap is
modelled explicitly: a store is a list of meal records addressed by index,
a meal list is a list of addresses, `copy()` allocates fresh cells at the
end of the store, and a strategy writes its per-meal update through each
address it was handed. -/

/-- Placeholder for dereferencing an invalid address (never reached for
    well-formed address lists). -/
def defaultMeal : Meal := ⟨"", [], 0, 0, 0, 0⟩

/-- The per-meal in-place update a strategy performs, as a function of the
    dispatched tag (reserved tags and the dead weight branch leave the
    meal unchanged). -/
def strategyMealUpdate (r : AdaptationReason) (analysis : TrendAnalysis) :
    Meal → Meal :=
  match r with
  | .highGlucose =>
    mealHighGlucoseUpdate
      (if analysis.glucose.maximum.getD 0 > 160 then 7/10 else 8/10)
  | .lowActivity => mealScale (85/100)
  | .poorSleep => mealPoorSleepUpdate
  | .highStress => mealScale (95/100)
  | .weightChange =>
    let change := analysis.weight.total_change_kg.getD 0
    if change > 1 then mealScale (9/10)
    else if change < -1 then mealWeightLossUpdate
    else id
  | _ => id

/-- One strategy pass over the heap: write `f(cell)` back through every
    address in `ptrs`. -/
def heapApplyUpdate (f : Meal → Meal) (store : List Meal)
    (ptrs : List ℕ) : List Meal :=
  ptrs.foldl (fun st p => st.set p (f (st.getD p defaultMeal))) store

/-- The strategy loop of `adapt_meal_plan` acting on the heap. -/
def applyStrategiesHeap (rs : List AdaptationReason)
    (analysis : TrendAnalysis) (store : List Meal) (ptrs : List ℕ) :
    List Meal :=
  match rs with
  | [] => store
  | r :: rest =>
    applyStrategiesHeap rest analysis
      (heapApplyUpdate (strategyMealUpdate r analysis) store ptrs) ptrs

/-- Heap-level `adapt_meal_plan`: dereference the caller's addresses,
    analyze, and either return the caller's list unchanged or allocate one
    fresh copy per meal (`meal.copy()`) and mutate only those copies.
    Returns the final store and the address list of the returned meals. -/
def adapt_meal_plan_heap (store : List Meal) (ptrs : List ℕ)
    (biometric_data : List BiometricData) (now : ℚ) :
    List Meal × List ℕ :=
  let meals := ptrs.map (fun p => store.getD p defaultMeal)
  let analysis := analyze_biometric_trends biometric_data now 7
  if analysis.adaptations_needed = [] then (store, ptrs)
  else
    let new_ptrs := List.range' store.length meals.length
    let store₁ := store ++ meals
    (applyStrategiesHeap analysis.adaptations_needed analysis store₁ new_ptrs,
     new_ptrs)

/-! ## Helper lemmas -/

theorem insertAscTs_perm (a : BiometricData) (l : List BiometricData) :
    (insertAscTs a l).Perm (a :: l) := by
  induction l with
  | nil => simp [insertAscTs]
  | cons b t ih =>
    by_cases h : a.timestamp ≤ b.timestamp
    · simp [insertAscTs, h]
    · simp only [insertAscTs, if_neg h]
      exact (ih.cons b).trans (List.Perm.swap a b t)

theorem sortAscTs_perm (l : List BiometricData) : (sortAscTs l).Perm l := by
  induction l with
  | nil => simp [sortAscTs]
  | cons a t ih => exact (insertAscTs_perm a (sortAscTs t)).trans (ih.cons a)

theorem insertDescTs_perm (a : BiometricData) (l : List BiometricData) :
    (insertDescTs a l).Perm (a :: l) := by
  induction l with
  | nil => simp [insertDescTs]
  | cons b t ih =>
    by_cases h : a.timestamp ≥ b.timestamp
    · simp [insertDescTs, h]
    · simp only [insertDescTs, if_neg h]
      exact (ih.cons b).trans (List.Perm.swap a b t)

theorem sortDescTs_perm (l : List BiometricData) : (sortDescTs l).Perm l := by
  induction l with
  | nil => simp [sortDescTs]
  | cons a t ih => exact (insertDescTs_perm a (sortDescTs t)).trans (ih.cons a)

theorem npMean_perm {l₁ l₂ : List ℚ} (h : l₁.Perm l₂) : npMean l₁ = npMean l₂ := by
  unfold npMean
  rw [h.sum_eq, h.length_eq]

theorem pvariance_perm {l₁ l₂ : List ℚ} (h : l₁.Perm l₂) :
    pvariance l₁ = pvariance l₂ := by
  unfold pvariance
  rw [npMean_perm ((h.map _))]
  rw [npMean_perm h]

theorem npMean_nil : npMean [] = 0 := by simp [npMean]

/-- The high-glucose strategy re-derives calories from the updated macros,
    so its output meals are always macro-consistent. -/
theorem macroConsistent_mealHighGlucoseUpdate (r : ℚ) (m : Meal) :
    macroConsistent (mealHighGlucoseUpdate r m) := by
  unfold macroConsistent mealHighGlucoseUpdate
  ring

/-- The poor-sleep strategy re-derives calories from the updated macros. -/
theorem macroConsistent_mealPoorSleepUpdate (m : Meal) :
    macroConsistent (mealPoorSleepUpdate m) := by
  unfold macroConsistent mealPoorSleepUpdate
  ring

/-- Uniform scaling of all four fields preserves (but does not establish)
    macro-consistency. -/
theorem macroConsistent_mealScale (r : ℚ) {m : Meal}
    (h : macroConsistent m) : macroConsistent (mealScale r m) := by
  unfold macroConsistent mealScale
  unfold macroConsistent at h
  simp only
  rw [h]
  ring

/-- Every strategy other than WEIGHT_CHANGE maps macro-consistent meal
    lists to macro-consistent meal lists. -/
theorem applyStrategy_consistent {r : AdaptationReason}
    (hr : r ≠ AdaptationReason.weightChange) (an : TrendAnalysis)
    (pf : UserProfile) {meals : List Meal}
    (h : ∀ m ∈ meals, macroConsistent m) :
    ∀ m ∈ (applyStrategy r meals an pf).1, macroConsistent m := by
  cases r with
  | highGlucose =>
    intro m hm
    simp only [applyStrategy, adapt_for_high_glucose, List.mem_map] at hm
    obtain ⟨x, _, rfl⟩ := hm
    exact macroConsistent_mealHighGlucoseUpdate _ x
  | lowActivity =>
    intro m hm
    simp only [applyStrategy, adapt_for_low_activity, List.mem_map] at hm
    obtain ⟨x, hx, rfl⟩ := hm
    exact macroConsistent_mealScale _ (h x hx)
  | poorSleep =>
    intro m hm
    simp only [applyStrategy, adapt_for_poor_sleep, List.mem_map] at hm
    obtain ⟨x, _, rfl⟩ := hm
    exact macroConsistent_mealPoorSleepUpdate x
  | highStress =>
    intro m hm
    simp only [applyStrategy, adapt_for_high_stress, List.mem_map] at hm
    obtain ⟨x, hx, rfl⟩ := hm
    exact macroConsistent_mealScale _ (h x hx)
  | weightChange => exact absurd rfl hr
  | illnessRecovery => simpa [applyStrategy] using h
  | exerciseSession => simpa [applyStrategy] using h
  | mealTiming => simpa [applyStrategy] using h

/-- Folding any weight-change-free strategy list over macro-consistent
    meals keeps every meal macro-consistent. -/
theorem applyStrategies_consistent (rs : List AdaptationReason)
    (an : TrendAnalysis) (pf : UserProfile) (meals : List Meal)
    (hwc : AdaptationReason.weightChange ∉ rs)
    (h : ∀ m ∈ meals, macroConsistent m) :
    ∀ m ∈ (applyStrategies rs an pf meals).1, macroConsistent m := by
  induction rs generalizing meals with
  | nil => simpa [applyStrategies] using h
  | cons r rest ih =>
    have hr : r ≠ AdaptationReason.weightChange := by
      intro e
      exact hwc (e ▸ List.mem_cons_self r rest)
    have hrest : AdaptationReason.weightChange ∉ rest := by
      intro e
      exact hwc (List.mem_cons_of_mem r e)
    intro m hm
    simp only [applyStrategies] at hm
    exact ih _ hrest (applyStrategy_consistent hr an pf h) m hm

/-- The glucose analysis emits either no tag or exactly HIGH_GLUCOSE. -/
theorem glucose_adaptations_cases (d : List BiometricData) :
    (analyze_glucose_trends d).adaptations = [] ∨
    (analyze_glucose_trends d).adaptations = [.highGlucose] := by
  unfold analyze_glucose_trends
  dsimp only
  split
  · simp
  · simp only
    split
    · right; rfl
    · left; rfl

/-- The activity analysis emits either no tag or exactly LOW_ACTIVITY. -/
theorem activity_adaptations_cases (d : List BiometricData) :
    (analyze_activity_trends d).adaptations = [] ∨
    (analyze_activity_trends d).adaptations = [.lowActivity] := by
  unfold analyze_activity_trends
  dsimp only
  split
  · simp
  · simp only
    split
    · right; rfl
    · left; rfl

/-- The sleep analysis emits either no tag or exactly POOR_SLEEP. -/
theorem sleep_adaptations_cases (d : List BiometricData) :
    (analyze_sleep_trends d).adaptations = [] ∨
    (analyze_sleep_trends d).adaptations = [.poorSleep] := by
  unfold analyze_sleep_trends
  dsimp only
  split
  · simp
  · simp only
    split
    · right; rfl
    · left; rfl

/-- The heart-rate analysis never emits WEIGHT_CHANGE. -/
theorem heart_rate_adaptations_no_wc (d : List BiometricData) :
    AdaptationReason.weightChange ∉ (analyze_heart_rate_trends d).adaptations := by
  unfold analyze_heart_rate_trends
  dsimp only
  split
  · simp
  · simp only
    intro h
    rcases List.mem_append.mp h with h1 | h1 <;>
    · revert h1
      split <;> simp

/-- The weight analysis emits either no tag or exactly WEIGHT_CHANGE. -/
theorem weight_adaptations_cases (d : List BiometricData) :
    (analyze_weight_trends d).adaptations = [] ∨
    (analyze_weight_trends d).adaptations = [.weightChange] := by
  unfold analyze_weight_trends
  dsimp only
  split
  · simp
  · simp only
    split
    · right; rfl
    · left; rfl

/-- If WEIGHT_CHANGE occurs at most as the final element of the last block
    of a five-block concatenation, it does not occur before the last
    position of the whole list. -/
theorem wc_dropLast_helper (G A S H W : List AdaptationReason)
    (hG : AdaptationReason.weightChange ∉ G)
    (hA : AdaptationReason.weightChange ∉ A)
    (hS : AdaptationReason.weightChange ∉ S)
    (hH : AdaptationReason.weightChange ∉ H)
    (hW : W = [] ∨ W = [.weightChange]) :
    AdaptationReason.weightChange ∉ ((((G ++ A) ++ S) ++ H) ++ W).dropLast := by
  rcases hW with rfl | rfl
  · simp only [List.append_nil]
    intro hm
    have hm2 := (List.dropLast_sublist (((G ++ A) ++ S) ++ H)).subset hm
    simp only [List.mem_append] at hm2
    tauto
  · rw [List.dropLast_concat]
    intro hm
    simp only [List.mem_append] at hm
    tauto

/-- The analyzer emits WEIGHT_CHANGE only as the very last adaptation tag
    (the five metrics report in the fixed order glucose, activity, sleep,
    heart rate, weight). -/
theorem wc_only_last (data : List BiometricData) (now db : ℚ) :
    AdaptationReason.weightChange ∉
      (analyze_biometric_trends data now db).adaptations_needed.dropLast := by
  unfold analyze_biometric_trends
  split
  · simp [emptyAnalysis]
  · dsimp only
    split
    · simp [emptyAnalysis]
    · set rec2 := (sortAscTs data).filter (fun d => decide (now - db ≤ d.timestamp)) with hrec
      refine wc_dropLast_helper _ _ _ _ _ ?_ ?_ ?_ ?_ ?_
      · rcases glucose_adaptations_cases rec2 with h | h <;> split <;> simp [h]
      · rcases activity_adaptations_cases rec2 with h | h <;> split <;> simp [h]
      · rcases sleep_adaptations_cases rec2 with h | h <;> split <;> simp [h]
      · have := heart_rate_adaptations_no_wc rec2
        split <;> simp [this]
      · rcases weight_adaptations_cases rec2 with h | h <;> split <;> simp [h]

/-- Reading the cell right after a prefix of known length. -/
theorem getD_append_len (l t : List Meal) (a d : Meal) :
    (l ++ a :: t).getD l.length d = a := by
  rw [List.getD_eq_getElem?_getD, List.getElem?_append_right (le_refl l.length)]
  simp

/-- Writing the cell right after a prefix of known length. -/
theorem set_append_len (l t : List Meal) (a b : Meal) :
    (l ++ a :: t).set l.length b = l ++ b :: t := by
  induction l with
  | nil => rfl
  | cons x xs ih => simp [ih]

/-- Writing through the freshly allocated contiguous block updates exactly
    that block, pointwise. -/
theorem heapApplyUpdate_fresh (f : Meal → Meal) (store ms : List Meal) :
    heapApplyUpdate f (store ++ ms) (List.range' store.length ms.length) =
      store ++ ms.map f := by
  induction ms generalizing store with
  | nil => simp [heapApplyUpdate]
  | cons m t ih =>
    have h1 : List.range' store.length (m :: t).length =
        store.length :: List.range' (store.length + 1) t.length := by
      simp [List.range'_succ]
    rw [h1]
    simp only [heapApplyUpdate, List.foldl_cons]
    rw [getD_append_len, set_append_len]
    have h2 : store ++ f m :: t = (store ++ [f m]) ++ t := by simp
    have h3 : store.length + 1 = (store ++ [f m]).length := by simp
    rw [h2, h3]
    have := ih (store ++ [f m])
    simp only [heapApplyUpdate] at this
    rw [this]
    simp

/-- The meal list a single dispatched strategy produces is the map of its
    per-meal update. -/
theorem applyStrategy_fst (r : AdaptationReason) (meals : List Meal)
    (an : TrendAnalysis) (pf : UserProfile) :
    (applyStrategy r meals an pf).1 = meals.map (strategyMealUpdate r an) := by
  cases r <;>
    simp [applyStrategy, strategyMealUpdate, adapt_for_high_glucose,
      adapt_for_low_activity, adapt_for_poor_sleep, adapt_for_high_stress,
      adapt_for_weight_change]
  split
  · rfl
  split
  · rfl
  · simp

/-- The meal list the strategy loop produces is the left fold of the
    per-meal updates. -/
theorem applyStrategies_fst (rs : List AdaptationReason)
    (an : TrendAnalysis) (pf : UserProfile) (meals : List Meal) :
    (applyStrategies rs an pf meals).1 =
      rs.foldl (fun acc r => acc.map (strategyMealUpdate r an)) meals := by
  induction rs generalizing meals with
  | nil => rfl
  | cons r rest ih =>
    simp only [applyStrategies, List.foldl_cons]
    rw [← applyStrategy_fst r meals an pf]
    exact ih _

/-- Running the heap strategy loop on a freshly allocated block leaves the
    original store as an unchanged prefix and folds the updates over the
    block. -/
theorem applyStrategiesHeap_fresh (rs : List AdaptationReason)
    (an : TrendAnalysis) (store ms : List Meal) :
    applyStrategiesHeap rs an (store ++ ms) (List.range' store.length ms.length) =
      store ++ rs.foldl (fun acc r => acc.map (strategyMealUpdate r an)) ms := by
  induction rs generalizing ms with
  | nil => simp [applyStrategiesHeap]
  | cons r rest ih =>
    simp only [applyStrategiesHeap, List.foldl_cons]
    rw [heapApplyUpdate_fresh]
    have hlen : ms.length = (ms.map (strategyMealUpdate r an)).length := by simp
    rw [hlen]
    exact ih _

/-- A heart-rate-only biometric history whose mean exceeds the stress
    threshold and whose variance exceeds 400 (std > 20 bpm) makes the
    analyzer emit HIGH_STRESS exactly twice. -/
theorem hr_only_analysis (data : List BiometricData) (now : ℚ)
    (h7 : ∀ d ∈ data, now - 7 ≤ d.timestamp)
    (honly : ∀ d ∈ data, d.steps = none ∧ d.sleep_hours = none ∧
        d.glucose_mg_dl = none ∧ d.weight_kg = none)
    (havg : heartRateHighThreshold < npMean (data.filterMap (·.heart_rate)))
    (hvar : 400 < pvariance (data.filterMap (·.heart_rate))) :
    (analyze_biometric_trends data now 7).adaptations_needed =
      [.highStress, .highStress] := by
  have hhrne : data.filterMap (·.heart_rate) ≠ [] := by
    intro e
    rw [e] at havg
    simp [npMean, heartRateHighThreshold] at havg
    linarith
  have hdata : data ≠ [] := by
    intro e
    subst e
    simp at hhrne
  have hfil : (sortAscTs data).filter (fun d => decide (now - 7 ≤ d.timestamp)) =
      sortAscTs data := by
    refine List.filter_eq_self.mpr ?_
    intro a ha
    exact decide_eq_true (h7 a ((sortAscTs_perm data).mem_iff.mp ha))
  have hperm : (sortAscTs data).Perm data := sortAscTs_perm data
  have hrecne : sortAscTs data ≠ [] := by
    intro e
    exact hdata ((e ▸ hperm).symm.eq_nil)
  have hhrperm : ((sortAscTs data).filterMap (·.heart_rate)).Perm
      (data.filterMap (·.heart_rate)) := hperm.filterMap _
  have hmean : npMean ((sortAscTs data).filterMap (·.heart_rate)) =
      npMean (data.filterMap (·.heart_rate)) := npMean_perm hhrperm
  have hvarp : pvariance ((sortAscTs data).filterMap (·.heart_rate)) =
      pvariance (data.filterMap (·.heart_rate)) := pvariance_perm hhrperm
  have hhrne2 : (sortAscTs data).filterMap (·.heart_rate) ≠ [] := by
    intro e
    exact hhrne ((e ▸ hhrperm).symm.eq_nil)
  have hsteps : (sortAscTs data).filterMap (·.steps) = [] :=
    List.filterMap_eq_nil_iff.mpr
      (fun a ha => (honly a (hperm.mem_iff.mp ha)).1)
  have hsleep : (sortAscTs data).filterMap (·.sleep_hours) = [] :=
    List.filterMap_eq_nil_iff.mpr
      (fun a ha => (honly a (hperm.mem_iff.mp ha)).2.1)
  have hglu : (sortAscTs data).filterMap (·.glucose_mg_dl) = [] :=
    List.filterMap_eq_nil_iff.mpr
      (fun a ha => (honly a (hperm.mem_iff.mp ha)).2.2.1)
  have hwt : (sortAscTs data).filterMap (·.weight_kg) = [] :=
    List.filterMap_eq_nil_iff.mpr
      (fun a ha => (honly a (hperm.mem_iff.mp ha)).2.2.2)
  have hg : analyze_glucose_trends (sortAscTs data) =
      { status := "no_data", alerts := [], adaptations := [] } := by
    unfold analyze_glucose_trends
    rw [hglu]
    simp
  have ha : analyze_activity_trends (sortAscTs data) =
      { status := "no_data", alerts := [], adaptations := [] } := by
    unfold analyze_activity_trends
    rw [hsteps]
    simp
  have hs : analyze_sleep_trends (sortAscTs data) =
      { status := "no_data", alerts := [], adaptations := [] } := by
    unfold analyze_sleep_trends
    rw [hsleep]
    simp
  have hw : analyze_weight_trends (sortAscTs data) =
      { status := "insufficient_data", alerts := [], adaptations := [] } := by
    unfold analyze_weight_trends
    rw [hwt]
    simp
  have hhal : (analyze_heart_rate_trends (sortAscTs data)).adaptations =
      [.highStress, .highStress] := by
    unfold analyze_heart_rate_trends
    rw [if_neg hhrne2]
    simp only
    rw [if_pos (hmean ▸ havg), if_pos (by rw [hvarp]; exact hvar)]
    rfl
  have hhane : (analyze_heart_rate_trends (sortAscTs data)).alerts ≠ [] := by
    unfold analyze_heart_rate_trends
    rw [if_neg hhrne2]
    simp only
    rw [if_pos (hmean ▸ havg), if_pos (by rw [hvarp]; exact hvar)]
    simp
  unfold analyze_biometric_trends
  rw [if_neg hdata]
  simp only [hfil]
  rw [if_neg hrecne]
  simp only [hg, ha, hs, hw, hhal]
  simp [hhane, hhal]

/-! ## Fixtures for the concrete claims -/

/-- The scenario profile of spec §8: age 32, male, 75 kg, 180 cm,
    moderately active. -/
def profileC2 : UserProfile :=
  { name := "u", age := 32, sex := "male", weight_kg := 75, height_cm := 180,
    activity_level := .moderatelyActive }

/-- A small elderly profile whose clamp window is degenerate
    (1.5 × base TDEE < 1200). -/
def profileC4 : UserProfile :=
  { name := "cx", age := 90, sex := "female", weight_kg := 40, height_cm := 140,
    activity_level := .sedentary }

/-- A profile allergic to nuts. -/
def profileC8 : UserProfile :=
  { name := "a", age := 30, sex := "female", weight_kg := 60, height_cm := 165,
    activity_level := .sedentary,
    dietary_preferences := { allergies := ["Nuts"] } }

/-- A food carrying the nuts allergen. -/
def peanutFood : Food :=
  { name := "Peanut Butter", category := "protein", allergens := ["nuts"] }

/-- One low-step sample: triggers exactly the LOW_ACTIVITY adaptation. -/
def c1hist : List BiometricData :=
  [⟨0, some 1000, none, none, none, none, none, none, none⟩]

/-- A meal whose calories field is not macro-derived
    (100 ≠ 0·4 + 10·4 + 0·9). -/
def c1meal : Meal := ⟨"lunch", ["rice"], 100, 0, 10, 0⟩

/-- A macro-consistent meal (210 = 10·4 + 20·4 + 10·9). -/
def consistentMeal : Meal := ⟨"dinner", ["salmon"], 210, 10, 20, 10⟩

/-- Six glucose samples: the five oldest average 80 mg/dL, the five most
    recent average 164 mg/dL. -/
def c3samples : List BiometricData :=
  [⟨1, none, none, none, some 80, none, none, none, none⟩,
   ⟨2, none, none, none, some 80, none, none, none, none⟩,
   ⟨3, none, none, none, some 80, none, none, none, none⟩,
   ⟨4, none, none, none, some 80, none, none, none, none⟩,
   ⟨5, none, none, none, some 80, none, none, none, none⟩,
   ⟨6, none, none, none, some 500, none, none, none, none⟩]

/-- Two heart-rate samples with mean 110 bpm and variance 2500
    (std = 50 > 20). -/
def c5hist : List BiometricData :=
  [⟨0, none, some 60, none, none, none, none, none, none⟩,
   ⟨0, none, some 160, none, none, none, none, none, none⟩]

/-- One glucose sample peaking at 150 mg/dL. -/
def hist150 : List BiometricData :=
  [⟨0, none, none, none, some 150, none, none, none, none⟩]

/-- One glucose sample peaking at 170 mg/dL. -/
def hist170 : List BiometricData :=
  [⟨0, none, none, none, some 170, none, none, none, none⟩]

/-- One short-sleep sample: triggers exactly the POOR_SLEEP adaptation. -/
def c10hist : List BiometricData :=
  [⟨0, none, none, some 4, none, none, none, none, none⟩]

/-- A one-cell heap. -/
def c10store : List Meal := [⟨"breakfast", ["oats"], 300, 10, 50, 5⟩]

/-! ## The claims -/

/-- C1 (counterexample): the macro-derived calorie identity is NOT a
    post-condition of every non-weight adaptation step for arbitrary input
    meals.  The history `c1hist` triggers exactly the LOW_ACTIVITY strategy;
    applied to the meal `⟨100, 0, 10, 0⟩` (whose calories field is not
    macro-derived) it returns calories 85 with protein 0, carbs 8.5, fat 0,
    and 85 ≠ 0·4 + 8.5·4 + 0·9 = 34. -/
theorem C1_counterexample :
    (analyze_biometric_trends c1hist 0 7).adaptations_needed = [.lowActivity] ∧
    (adapt_meal_plan [c1meal] profileC2 c1hist 0).1 =
      [⟨"lunch", ["rice"], 85, 0, 17/2, 0⟩] ∧
    ¬ macroConsistent ⟨"lunch", ["rice"], 85, 0, 17/2, 0⟩ := by
  refine ⟨?_, ?_, ?_⟩
  · simp [analyze_biometric_trends, c1hist, sortAscTs, insertAscTs,
      analyze_glucose_trends, analyze_activity_trends, analyze_sleep_trends,
      analyze_heart_rate_trends, analyze_weight_trends, npMean, npMin, pvariance,
      LOW_ACTIVITY_THRESHOLD]
    norm_num
  · simp [adapt_meal_plan, analyze_biometric_trends, c1hist, sortAscTs, insertAscTs,
      analyze_glucose_trends, analyze_activity_trends, analyze_sleep_trends,
      analyze_heart_rate_trends, analyze_weight_trends, npMean, npMin, pvariance,
      LOW_ACTIVITY_THRESHOLD, applyStrategies, applyStrategy, adapt_for_low_activity,
      mealScale, c1meal]
    norm_num
  · simp [macroConsistent]
    norm_num

/-- C1 (amended): for every biometric history that triggers at least one
    adaptation tag and every input meal list whose meals already satisfy
    `calories = protein·4 + carbs·4 + fat·9`, after each applied adaptation
    strategy other than WEIGHT_CHANGE — i.e. after every prefix of the
    emitted tag list that contains no WEIGHT_CHANGE, and WEIGHT_CHANGE can
    only ever be the final tag — every meal in the adapted list still
    satisfies the identity.  (The HIGH_GLUCOSE and POOR_SLEEP steps
    re-derive calories; the LOW_ACTIVITY and HIGH_STRESS steps scale all
    four fields uniformly and hence only preserve the identity.) -/
theorem C1_macro_invariant_amended (data : List BiometricData) (now : ℚ)
    (profile : UserProfile) (meals : List Meal) (k : ℕ)
    (htrig : (analyze_biometric_trends data now 7).adaptations_needed ≠ [])
    (hmeals : ∀ m ∈ meals, macroConsistent m)
    (hk : AdaptationReason.weightChange ∉
        (analyze_biometric_trends data now 7).adaptations_needed.take k) :
    AdaptationReason.weightChange ∉
      (analyze_biometric_trends data now 7).adaptations_needed.dropLast ∧
    ∀ m ∈ (applyStrategies
        ((analyze_biometric_trends data now 7).adaptations_needed.take k)
        (analyze_biometric_trends data now 7) profile meals).1,
      macroConsistent m := by
  exact ⟨wc_only_last data now 7,
    applyStrategies_consistent _ _ profile meals hk hmeals⟩

/-- C1 witness: the low-activity history applied to a macro-consistent
    meal keeps the adapted meal macro-consistent. -/
theorem C1_macro_invariant_amended_witness :
    (analyze_biometric_trends c1hist 0 7).adaptations_needed ≠ [] ∧
    (∀ m ∈ [consistentMeal], macroConsistent m) ∧
    AdaptationReason.weightChange ∉
      (analyze_biometric_trends c1hist 0 7).adaptations_needed.take 1 ∧
    macroConsistent (mealScale (85/100) consistentMeal) := by
  have htrig : (analyze_biometric_trends c1hist 0 7).adaptations_needed =
      [.lowActivity] := by
    simp [analyze_biometric_trends, c1hist, sortAscTs, insertAscTs,
      analyze_glucose_trends, analyze_activity_trends, analyze_sleep_trends,
      analyze_heart_rate_trends, analyze_weight_trends, npMean, npMin, pvariance,
      LOW_ACTIVITY_THRESHOLD]
    norm_num
  have hmeals : ∀ m ∈ [consistentMeal], macroConsistent m := by
    intro m hm
    rw [List.mem_singleton] at hm
    subst hm
    simp [macroConsistent, consistentMeal]
    norm_num
  have hk : AdaptationReason.weightChange ∉
      (analyze_biometric_trends c1hist 0 7).adaptations_needed.take 1 := by
    rw [htrig]
    simp
  have heval : (applyStrategies
      ((analyze_biometric_trends c1hist 0 7).adaptations_needed.take 1)
      (analyze_biometric_trends c1hist 0 7) profileC2 [consistentMeal]).1 =
      [mealScale (85/100) consistentMeal] := by
    rw [htrig]
    simp [applyStrategies, applyStrategy, adapt_for_low_activity]
  refine ⟨by rw [htrig]; simp, hmeals, hk, ?_⟩
  exact (C1_macro_invariant_amended c1hist 0 profileC2 [consistentMeal] 1
      (by rw [htrig]; simp) hmeals hk).2
    (mealScale (85/100) consistentMeal)
    (by rw [heval]; exact List.mem_singleton_self _)

/-- C2 (counterexample): for the §8 scenario profile the code returns
    BMR = 10·75 + 6.25·180 − 5·32 + 5 = 1720, not the 1705.0 the spec
    states. -/
theorem C2_counterexample :
    (calculate_tdee profileC2 [] true).bmr = 1720 ∧ (1720 : ℚ) ≠ 1705 := by
  constructor
  · simp [calculate_tdee, profileC2, calculate_bmr, mifflin_st_jeor, pyLower,
      pyLowerChar, estimate_body_fat_percentage, sortDescTs, ActivityLevel.value]
    norm_num
  · norm_num

/-- C2 (amended): for the §8 scenario profile with an empty biometric
    history, `calculate_tdee` returns BMR = 1720.0, base TDEE =
    adaptive TDEE = 1720 × 1.55 = 2666.0, every adaptive factor 1.0, and
    no adaptive multiplier entry. -/
theorem C2_scenario_amended :
    calculate_tdee profileC2 [] true =
      { bmr := 1720, base_tdee := 2666, adaptive_tdee := 2666,
        adaptive_factors :=
          { sleep_quality := 1, stress_level := 1, glucose_regulation := 1,
            activity_consistency := 1, recovery_status := 1 } } := by
  simp [calculate_tdee, profileC2, calculate_bmr, mifflin_st_jeor, pyLower,
    pyLowerChar, estimate_body_fat_percentage, sortDescTs, ActivityLevel.value]
  norm_num

/-- C3 (code behaviour at the failing input): with six glucose readings
    whose five most recent average 164 mg/dL (> 140, bucket 0.92) but whose
    five oldest average 80 mg/dL, the glucose-regulation factor comes out
    as 1.02 — the most-recent-first sort followed by the `[-5:]` slice
    selects the five OLDEST readings, not the five most recent ones. -/
theorem C3_glucose_factor_uses_oldest :
    (calculate_adaptive_factors c3samples).glucose_regulation = 102/100 ∧
    npMean (((sortDescTs c3samples).take 5).filterMap (·.glucose_mg_dl)) = 164 ∧
    (164 : ℚ) > 140 ∧ (102/100 : ℚ) ≠ 92/100 := by
  refine ⟨?_, ?_, by norm_num, by norm_num⟩
  · simp [calculate_adaptive_factors, c3samples, sortDescTs, insertDescTs,
      calculate_glucose_factor, takeLast, npMean]
    norm_num
  · simp [c3samples, sortDescTs, insertDescTs, npMean]
    norm_num

/-- C4 (counterexample): for `profileC4` (base TDEE 796.8) and rate 0.5
    the clamp window is degenerate — min_safe = 1200 exceeds
    max_safe = 1.5 × 796.8 = 1195.2 — so maintenance (clamped up to 1200)
    is NOT ≤ max_safe_calories, and weight_loss = maintenance = 1200 breaks
    the strict ordering as well. -/
theorem C4_counterexample :
    (calculate_calorie_needs_by_goal profileC4 (1/2)).maintenance = 1200 ∧
    (calculate_calorie_needs_by_goal profileC4 (1/2)).max_safe_calories = 5976/5 ∧
    ¬ ((calculate_calorie_needs_by_goal profileC4 (1/2)).maintenance ≤
        (calculate_calorie_needs_by_goal profileC4 (1/2)).max_safe_calories) ∧
    (calculate_calorie_needs_by_goal profileC4 (1/2)).weight_loss =
      (calculate_calorie_needs_by_goal profileC4 (1/2)).maintenance := by
  refine ⟨?_, ?_, ?_, ?_⟩ <;>
  · simp [calculate_calorie_needs_by_goal, calculate_tdee, profileC4,
      estimate_body_fat_percentage, sortDescTs, calculate_bmr, mifflin_st_jeor,
      UserProfile.calculate_bmr, pyLower, pyLowerChar, ActivityLevel.value]
    norm_num

/-- C4 (amended): for every profile whose base TDEE strictly exceeds the
    lower clamp max(1.1·BMR, 1200) — equivalently, whose clamp window is
    non-degenerate with room below the target — and every rate > 0,
    `calculate_calorie_needs_by_goal` returns
    min_safe ≤ maintenance ≤ max_safe and, strictly,
    weight_loss < maintenance < weight_gain. -/
theorem C4_goal_bounds_amended (p : UserProfile) (rate : ℚ) (hr : 0 < rate)
    (hb : (calculate_calorie_needs_by_goal p rate).min_safe_calories <
        (calculate_calorie_needs_by_goal p rate).tdee_breakdown.adaptive_tdee) :
    (calculate_calorie_needs_by_goal p rate).min_safe_calories ≤
        (calculate_calorie_needs_by_goal p rate).maintenance ∧
    (calculate_calorie_needs_by_goal p rate).maintenance ≤
        (calculate_calorie_needs_by_goal p rate).max_safe_calories ∧
    (calculate_calorie_needs_by_goal p rate).weight_loss <
        (calculate_calorie_needs_by_goal p rate).maintenance ∧
    (calculate_calorie_needs_by_goal p rate).maintenance <
        (calculate_calorie_needs_by_goal p rate).weight_gain := by
  simp only [calculate_calorie_needs_by_goal] at hb ⊢
  set B := (calculate_tdee p [] true).adaptive_tdee with hB
  set M := max (p.calculate_bmr * 11 / 10) 1200 with hM
  set d := |rate * 7700 / 7| with hd
  have hM1200 : (1200 : ℚ) ≤ M := le_max_right _ _
  have hMB : M < B := hb
  have hB0 : (0 : ℚ) < B := by linarith
  have hX : B < B * 3 / 2 := by linarith
  have hd0 : 0 < d := by
    rw [hd]
    have hpos : (0:ℚ) < rate * 7700 / 7 := by positivity
    rw [abs_of_pos hpos]
    exact hpos
  have hmaint : max M (min B (B * 3 / 2)) = B := by
    rw [min_eq_left (le_of_lt hX), max_eq_right (le_of_lt hMB)]
  refine ⟨?_, ?_, ?_, ?_⟩
  · rw [hmaint]
    exact le_of_lt hMB
  · rw [hmaint]
    exact le_of_lt hX
  · rw [hmaint, min_eq_left (by linarith : B - d ≤ B * 3 / 2)]
    exact max_lt hMB (by linarith)
  · rw [hmaint]
    exact (lt_min (by linarith : B < B + d) hX).trans_le (le_max_right _ _)

/-- C4 witness: the §8 scenario profile has min_safe = 1892 < 2666 = base
    TDEE, so the amended bound theorem applies to it at rate 0.5. -/
theorem C4_goal_bounds_amended_witness :
    (0 : ℚ) < 1/2 ∧
    (calculate_calorie_needs_by_goal profileC2 (1/2)).min_safe_calories <
      (calculate_calorie_needs_by_goal profileC2 (1/2)).tdee_breakdown.adaptive_tdee ∧
    ((calculate_calorie_needs_by_goal profileC2 (1/2)).min_safe_calories ≤
        (calculate_calorie_needs_by_goal profileC2 (1/2)).maintenance ∧
     (calculate_calorie_needs_by_goal profileC2 (1/2)).maintenance ≤
        (calculate_calorie_needs_by_goal profileC2 (1/2)).max_safe_calories ∧
     (calculate_calorie_needs_by_goal profileC2 (1/2)).weight_loss <
        (calculate_calorie_needs_by_goal profileC2 (1/2)).maintenance ∧
     (calculate_calorie_needs_by_goal profileC2 (1/2)).maintenance <
        (calculate_calorie_needs_by_goal profileC2 (1/2)).weight_gain) := by
  have hb : (calculate_calorie_needs_by_goal profileC2 (1/2)).min_safe_calories <
      (calculate_calorie_needs_by_goal profileC2 (1/2)).tdee_breakdown.adaptive_tdee := by
    simp [calculate_calorie_needs_by_goal, calculate_tdee, profileC2,
      estimate_body_fat_percentage, sortDescTs, calculate_bmr, mifflin_st_jeor,
      UserProfile.calculate_bmr, pyLower, pyLowerChar, ActivityLevel.value]
    norm_num
  exact ⟨by norm_num, hb,
    C4_goal_bounds_amended profileC2 (1/2) (by norm_num) hb⟩

/-- C5: for every heart-rate-only series within the 7-day window whose
    average exceeds the 100 bpm stress threshold AND whose standard
    deviation exceeds 20 bpm (variance > 400), the analyzer emits
    HIGH_STRESS twice and `adapt_meal_plan` applies the 0.95 uniform scale
    once per occurrence, i.e. each nutrient field is multiplied by 0.95
    twice (net 0.9025). -/
theorem C5_high_stress_double (data : List BiometricData) (now : ℚ)
    (h7 : ∀ d ∈ data, now - 7 ≤ d.timestamp)
    (honly : ∀ d ∈ data, d.steps = none ∧ d.sleep_hours = none ∧
        d.glucose_mg_dl = none ∧ d.weight_kg = none)
    (havg : heartRateHighThreshold < npMean (data.filterMap (·.heart_rate)))
    (hvar : 400 < pvariance (data.filterMap (·.heart_rate))) :
    (analyze_biometric_trends data now 7).adaptations_needed =
      [.highStress, .highStress] ∧
    ∀ meals profile, (adapt_meal_plan meals profile data now).1 =
      meals.map (fun m => mealScale (95/100) (mealScale (95/100) m)) := by
  have hada := hr_only_analysis data now h7 honly havg hvar
  refine ⟨hada, ?_⟩
  intro meals profile
  simp only [adapt_meal_plan, hada]
  simp [applyStrategies, applyStrategy, adapt_for_high_stress]

/-- C5 witness: two samples with heart rates 60 and 160 bpm (mean 110,
    variance 2500) produce the doubled HIGH_STRESS adaptation and the
    0.95 · 0.95 scaling of a concrete meal. -/
theorem C5_high_stress_double_witness :
    (∀ d ∈ c5hist, (0:ℚ) - 7 ≤ d.timestamp) ∧
    (∀ d ∈ c5hist, d.steps = none ∧ d.sleep_hours = none ∧
        d.glucose_mg_dl = none ∧ d.weight_kg = none) ∧
    heartRateHighThreshold < npMean (c5hist.filterMap (·.heart_rate)) ∧
    400 < pvariance (c5hist.filterMap (·.heart_rate)) ∧
    (analyze_biometric_trends c5hist 0 7).adaptations_needed =
      [.highStress, .highStress] ∧
    (adapt_meal_plan [consistentMeal] profileC2 c5hist 0).1 =
      [mealScale (95/100) (mealScale (95/100) consistentMeal)] := by
  have h7 : ∀ d ∈ c5hist, (0:ℚ) - 7 ≤ d.timestamp := by
    intro d hd
    simp only [c5hist, List.mem_cons, List.not_mem_nil, or_false] at hd
    rcases hd with rfl | rfl <;> norm_num
  have honly : ∀ d ∈ c5hist, d.steps = none ∧ d.sleep_hours = none ∧
      d.glucose_mg_dl = none ∧ d.weight_kg = none := by
    intro d hd
    simp only [c5hist, List.mem_cons, List.not_mem_nil, or_false] at hd
    rcases hd with rfl | rfl <;> exact ⟨rfl, rfl, rfl, rfl⟩
  have havg : heartRateHighThreshold < npMean (c5hist.filterMap (·.heart_rate)) := by
    simp [c5hist, npMean, heartRateHighThreshold]
    norm_num
  have hvar : 400 < pvariance (c5hist.filterMap (·.heart_rate)) := by
    simp [c5hist, pvariance, npMean]
    norm_num
  have main := C5_high_stress_double c5hist 0 h7 honly havg hvar
  exact ⟨h7, honly, havg, hvar, main.1, by rw [main.2 [consistentMeal] profileC2]; rfl⟩

/-- C6: for two adaptation inputs identical except for the glucose series
    (one sample of 150 vs 170 mg/dL, both above the 140 threshold), the
    HIGH_GLUCOSE strategy multiplies every meal's carbs by 0.8 in the
    first case and by 0.7 in the second (a strictly larger reduction for
    the higher peak), multiplies protein by 1.1, and recomputes calories
    as protein·4 + carbs·4 + fat·9 from the updated macros. -/
theorem C6_glucose_monotone :
    (∀ meals profile, (adapt_meal_plan meals profile hist150 0).1 =
      meals.map (fun m =>
        { m with
          carbs := m.carbs * (8/10)
          protein := m.protein * (11/10)
          calories := m.protein * (11/10) * 4 + m.carbs * (8/10) * 4 + m.fat * 9 })) ∧
    (∀ meals profile, (adapt_meal_plan meals profile hist170 0).1 =
      meals.map (fun m =>
        { m with
          carbs := m.carbs * (7/10)
          protein := m.protein * (11/10)
          calories := m.protein * (11/10) * 4 + m.carbs * (7/10) * 4 + m.fat * 9 })) ∧
    (1 : ℚ) - 7/10 > 1 - 8/10 := by
  refine ⟨?_, ?_, by norm_num⟩ <;>
  · intro meals profile
    simp [adapt_meal_plan, analyze_biometric_trends, hist150, hist170,
      sortAscTs, insertAscTs, analyze_glucose_trends, analyze_activity_trends,
      analyze_sleep_trends, analyze_heart_rate_trends, analyze_weight_trends,
      npMean, npMax, HIGH_GLUCOSE_THRESHOLD, glucoseLowThreshold,
      applyStrategies, applyStrategy, adapt_for_high_glucose]
    norm_num
    intro a _
    simp [mealHighGlucoseUpdate]

/-- C7: adapting with an empty biometric sample list returns exactly the
    input meal list with an empty explanation list, for every meal list
    and profile, and (being a total function) raises no error. -/
theorem C7_noop_adaptation (meals : List Meal) (profile : UserProfile)
    (now : ℚ) : adapt_meal_plan meals profile [] now = (meals, []) := by
  simp [adapt_meal_plan, analyze_biometric_trends, emptyAnalysis]

/-- C8: whenever the candidate pool is empty after allowance filtering,
    `optimize_meal_plan` returns the structured failure
    `{success: False, error: "No allowed foods available"}` for every
    profile, calorie target, meal-type list and satisfaction predictor,
    and (being a total function) raises no exception. -/
theorem C8_empty_pool_failure (predict : Food → ℚ) (p : UserProfile)
    (foods : List Food) (target_calories : Option ℚ) (meal_types : List String)
    (hfil : foods.filter (fun f => is_food_allowed p f) = []) :
    optimize_meal_plan predict p foods target_calories meal_types =
      .failure "No allowed foods available" := by
  simp only [optimize_meal_plan, hfil]

/-- C8 witness: a nut-allergic profile filters out the only candidate and
    gets the structured failure. -/
theorem C8_empty_pool_failure_witness :
    [peanutFood].filter (fun f => is_food_allowed profileC8 f) = [] ∧
    optimize_meal_plan (fun _ => 3) profileC8 [peanutFood] none
        ["breakfast", "lunch", "dinner"] =
      .failure "No allowed foods available" := by
  have hfil : [peanutFood].filter (fun f => is_food_allowed profileC8 f) = [] := by
    decide
  exact ⟨hfil, C8_empty_pool_failure (fun _ => 3) profileC8 [peanutFood] none
    ["breakfast", "lunch", "dinner"] hfil⟩

/-- C9: for every profile whose sex string does not lowercase to "male"
    (e.g. "other"), the Mifflin-St Jeor BMR uses the −161 constant and
    therefore equals the BMR of a female profile with the same age, weight
    and height — both in metabolism._mifflin_st_jeor and in
    models.UserProfile.calculate_bmr. -/
theorem C9_nonmale_bmr (p : UserProfile) (h : pyLower p.sex ≠ "male") :
    mifflin_st_jeor p =
      10 * p.weight_kg + 625/100 * p.height_cm - 5 * p.age - 161 ∧
    mifflin_st_jeor p = mifflin_st_jeor { p with sex := "female" } ∧
    UserProfile.calculate_bmr p =
      UserProfile.calculate_bmr { p with sex := "female" } := by
  unfold mifflin_st_jeor UserProfile.calculate_bmr
  simp only
  rw [if_neg h, if_neg (by decide : ¬ (pyLower "female" = "male"))]
  exact ⟨rfl, rfl, rfl⟩

/-- C9 witness: the theorem applied to a profile with sex = "Other". -/
theorem C9_nonmale_bmr_witness :
    pyLower ({ profileC8 with sex := "Other" } : UserProfile).sex ≠ "male" ∧
    mifflin_st_jeor { profileC8 with sex := "Other" } =
      mifflin_st_jeor { profileC8 with sex := "female" } := by
  have h : pyLower ({ profileC8 with sex := "Other" } : UserProfile).sex ≠
      "male" := by decide
  exact ⟨h, (C9_nonmale_bmr { profileC8 with sex := "Other" } h).2.1⟩

/-- C10: whenever the analysis triggers at least one adaptation, the heap
    model of `adapt_meal_plan` (meal dicts as store cells, `meal.copy()` as
    allocation of fresh cells, strategy updates as writes through the handed
    addresses) leaves every pre-existing cell — in particular all the
    caller's meal dicts — unchanged; the returned addresses are exactly the
    freshly allocated block, and the meals found there are exactly the
    output of the pure `adapt_meal_plan`. -/
theorem C10_frame_preservation (store : List Meal) (ptrs : List ℕ)
    (profile : UserProfile) (data : List BiometricData) (now : ℚ)
    (hne : (analyze_biometric_trends data now 7).adaptations_needed ≠ []) :
    (∀ q, q < store.length →
      (adapt_meal_plan_heap store ptrs data now).1[q]? = store[q]?) ∧
    (adapt_meal_plan_heap store ptrs data now).1.drop store.length =
      (adapt_meal_plan (ptrs.map (fun p => store.getD p defaultMeal))
        profile data now).1 ∧
    (adapt_meal_plan_heap store ptrs data now).2 =
      List.range' store.length ptrs.length := by
  have hexp : adapt_meal_plan_heap store ptrs data now =
      (store ++ (analyze_biometric_trends data now 7).adaptations_needed.foldl
          (fun acc r =>
            acc.map (strategyMealUpdate r (analyze_biometric_trends data now 7)))
          (ptrs.map (fun p => store.getD p defaultMeal)),
       List.range' store.length ptrs.length) := by
    simp only [adapt_meal_plan_heap, if_neg hne]
    rw [applyStrategiesHeap_fresh]
    simp
  refine ⟨?_, ?_, ?_⟩
  · intro q hq
    rw [hexp]
    exact List.getElem?_append_left hq
  · rw [hexp]
    simp only [adapt_meal_plan, if_neg hne]
    rw [applyStrategies_fst, List.drop_left]
  · rw [hexp]

/-- C10 witness: a poor-sleep history adapts the one-meal heap; the
    original cell is untouched, the returned address is the fresh cell 1,
    and it holds the pure adaptation's output. -/
theorem C10_frame_preservation_witness :
    (analyze_biometric_trends c10hist 0 7).adaptations_needed ≠ [] ∧
    (adapt_meal_plan_heap c10store [0] c10hist 0).1[0]? = c10store[0]? ∧
    (adapt_meal_plan_heap c10store [0] c10hist 0).1.drop 1 =
      (adapt_meal_plan ([0].map (fun p => c10store.getD p defaultMeal))
        profileC2 c10hist 0).1 ∧
    (adapt_meal_plan_heap c10store [0] c10hist 0).2 = [1] := by
  have hne : (analyze_biometric_trends c10hist 0 7).adaptations_needed ≠ [] := by
    have : (analyze_biometric_trends c10hist 0 7).adaptations_needed =
        [.poorSleep] := by
      simp [analyze_biometric_trends, c10hist, sortAscTs, insertAscTs,
        analyze_glucose_trends, analyze_activity_trends, analyze_sleep_trends,
        analyze_heart_rate_trends, analyze_weight_trends, npMean, npMin,
        POOR_SLEEP_THRESHOLD]
      norm_num
    rw [this]
    simp
  have main := C10_frame_preservation c10store [0] profileC2 c10hist 0 hne
  refine ⟨hne, main.1 0 (by simp [c10store]), ?_, ?_⟩
  · have := main.2.1
    simpa [c10store] using this
  · rw [main.2.2]
    rfl

end StayFit
